import Mathlib

/-!
Verification of the v1900 market-research pipeline against its
natural-language specification.

Shallow embedding of the Python sources:
  - `src/services/viral_integration_service.py` (viral score, API key rotation)
  - `src/services/enhanced_workflow.py` (result processor)
  - `src/routes/enhanced_workflow.py` (status / download routes, step-1 start)
  - `src/services/auto_save_manager.py` (session store)
  - `src/services/massive_search_engine.py` (search loop, consolidation)

Python dicts are modelled as association lists, filesystem probes as
explicit boolean or list-valued records, timestamps as a natural-number
counter, and the unseen network backends as oracle function parameters.
-/

set_option linter.unusedVariables false

namespace V1900

/-! ## Association-list helpers (Python dict as assoc list) -/

/-- Lookup of a string key in an association list (Python `d[k]` / `d.get(k)`). -/
def alookup {β : Type _} (l : List (String × β)) (k : String) : Option β :=
  (l.find? (fun p => p.1 == k)).map Prod.snd

/-- Update of a string key in an association list (Python `d[k] = v`):
replaces the first binding of `k`, otherwise appends a new binding. -/
def aset {β : Type _} : List (String × β) → String → β → List (String × β)
  | [], k, v => [(k, v)]
  | (k2, v2) :: rest, k, v =>
    if k2 == k then (k, v) :: rest else (k2, v2) :: aset rest k v

/-! ## Viral Image Finder: viral score
(`src/services/viral_integration_service.py`, `_calculate_viral_score`) -/

/-- Whether `needle` is an initial segment of `haystack` (on character lists,
structurally recursive so that concrete instances evaluate in the kernel). -/
def charsStartWith : List Char → List Char → Bool
  | [], _ => true
  | _ :: _, [] => false
  | n :: ns, h :: hs => n == h && charsStartWith ns hs

/-- Whether `needle` occurs as a contiguous segment of `haystack`. -/
def charsContain (needle : List Char) : List Char → Bool
  | [] => needle.isEmpty
  | h :: rest => charsStartWith needle (h :: rest) || charsContain needle rest

/-- Python `needle in haystack` substring test. -/
def containsSub (needle haystack : String) : Bool :=
  charsContain needle.toList haystack.toList

/-- Python `s.lower()` (character-wise lowercasing). -/
def pyLower (s : String) : String :=
  String.mk (s.toList.map Char.toLower)

/-- The fixed keyword list of `_calculate_viral_score`. -/
def viralKeywords : List String :=
  ["viral", "trending", "popular", "mil", "views", "likes", "compartilh", "sucesso"]

/-- The social platform substrings checked against the link. -/
def socialPlatforms : List String :=
  ["instagram.com", "facebook.com", "youtube.com"]

/-- `_calculate_viral_score`, translated statement by statement: base score 5.0,
then one point per keyword of `viralKeywords` found in the lowercased title,
then two points if the link contains a social platform substring, capped at 10.0.
Scores are exact small decimals, embedded in `ℚ`. -/
def calculateViralScore (title link : String) : ℚ :=
  let score0 : ℚ := 5
  let titleLower := pyLower title
  let score1 :=
    viralKeywords.foldl
      (fun score keyword => if containsSub keyword titleLower then score + 1 else score) score0
  let score2 := if socialPlatforms.any (fun p => containsSub p link) then score1 + 2 else score1
  min score2 10

/-- The viral-score heuristic as worded by the spec: base 5.0, plus 1.0 for each
keyword of the fixed set found as a substring of the lowercased title, plus 2.0
for a social link, capped at 10.0. Stated with an explicit count so it can be
compared with the fold in the source translation. -/
def viralScoreSpec (title link : String) : ℚ :=
  let kwCount := (viralKeywords.filter (fun k => containsSub k (pyLower title))).length
  let social : ℚ := if socialPlatforms.any (fun p => containsSub p link) then 2 else 0
  min (5 + (kwCount : ℚ) + social) 10

/-! ## Viral Image Finder: API key rotation
(`src/services/viral_integration_service.py`, `__init__` and `_get_next_api_key`) -/

/-- The two backend families that own a rotation cursor
(`current_api_index = {'serper': 0, 'google_cse': 0}`). -/
inductive Service where
  | serper
  | googleCse
deriving DecidableEq

/-- Dictionary key of a service in `current_api_index` and in API identifiers. -/
def Service.name : Service → String
  | .serper => "serper"
  | .googleCse => "google_cse"

/-- `f"{service}_{current_index}"`, the identifier checked against `failed_apis`. -/
def apiIdentifier (svc : Service) (idx : Nat) : String :=
  svc.name ++ "_" ++ toString idx

/-- The mutable finder state touched by `_get_next_api_key`:
the per-service rotation cursor and the `failed_apis` set (kept as a list). -/
structure FinderState where
  serperIdx : Nat
  googleIdx : Nat
  failedApis : List String
deriving DecidableEq

/-- Cursor of a given service. -/
def FinderState.idx (st : FinderState) : Service → Nat
  | .serper => st.serperIdx
  | .googleCse => st.googleIdx

/-- Set the cursor of a given service. -/
def FinderState.setIdx (st : FinderState) : Service → Nat → FinderState
  | .serper, i => { st with serperIdx := i }
  | .googleCse, i => { st with googleIdx := i }

/-- State created by `ViralImageFinder.__init__`: both cursors 0, `failed_apis` empty. -/
def initFinderState : FinderState :=
  { serperIdx := 0, googleIdx := 0, failedApis := [] }

/-- The `for attempt in range(len(keys))` scan of `_get_next_api_key`:
returns the chosen index (if any) together with the cursor left behind.
Each attempt that hits a failed identifier advances the cursor; a successful
attempt returns the current index and advances the cursor once more. -/
def rotLoop (keyCount : Nat) (svc : Service) (failed : List String) :
    Nat → Nat → Option Nat × Nat
  | _, 0 => (none, 0)
  | idx, n + 1 =>
    if apiIdentifier svc idx ∈ failed then
      rotLoop keyCount svc failed ((idx + 1) % keyCount) n
    else
      (some idx, (idx + 1) % keyCount)

/-- `_get_next_api_key`, over an abstract key type `K`: guard on an empty key
list, then the rotation scan. Python indexes `keys[current_index]`; the model
uses `List.get?`, which agrees whenever the cursor is below the key-list length
(an invariant of every reachable state, proved below). -/
def getNextApiKey {K : Type _} (keys : Service → List K) (svc : Service)
    (st : FinderState) : Option K × FinderState :=
  let ks := keys svc
  if ks.isEmpty then (none, st)
  else
    match rotLoop ks.length svc st.failedApis (st.idx svc) ks.length with
    | (some i, newIdx) => (ks.get? i, st.setIdx svc newIdx)
    | (none, _) => (none, st.setIdx svc (st.idx svc))

/-- States of a `ViralImageFinder` reachable from construction: `__init__`
followed by any sequence of `_get_next_api_key` calls — the only code paths in
the class that read or write the cursor dictionary or `failed_apis`. -/
inductive FinderReachable {K : Type _} (keys : Service → List K) : FinderState → Prop
  | init : FinderReachable keys initFinderState
  | step (svc : Service) (st : FinderState) :
      FinderReachable keys st → FinderReachable keys (getNextApiKey keys svc st).2

/-! ## ResultProcessor (`src/services/enhanced_workflow.py`) -/

/-- A raw search result as handed to `ResultProcessor.process_results`:
a dict whose relevant string fields may each be absent. -/
structure RawResult where
  title : Option String
  link : Option String
  snippet : Option String
  description : Option String
  source : Option String
  date : Option String
deriving DecidableEq

/-- The normalized result dict built inside the loop of `process_results`. -/
structure ProcessedResult where
  title : String
  link : String
  description : String
  source : String
  date : Option String
deriving DecidableEq

/-- Modelled from the spec: `remove_special_characters` lives in the missing
module `src/utils/common.py`; the spec only says the processor "strips a fixed
set of special characters from title/description". The general theorems below
are stated for an arbitrary stripping function `rsc`; closed instances use this
representative one. -/
def removeSpecialCharacters (s : String) : String :=
  String.mk (s.toList.filter (fun c => !(["!", "@", "$", "%", "&", "*", "?"].any (fun t => t = String.mk [c]))))

/-- `format_result_date`: `None`/empty input yields `None`; otherwise the date
string is reformatted by the first matching strptime pattern, falling back to
the original string. The strptime machinery itself is kept abstract as the
parameter `parse` (it returns the reformatted date when some pattern matched);
no claim depends on it. -/
def formatResultDate (parse : String → Option String) (d : Option String) : Option String :=
  match d with
  | none => none
  | some s => if s = "" then none else some ((parse s).getD s)

/-- Python `s.strip()` on the leading side of a character list. -/
def dropLeadingWs : List Char → List Char
  | [] => []
  | c :: rest => if c.isWhitespace then dropLeadingWs rest else c :: rest

/-- Python `s.strip()`: remove leading and trailing whitespace. -/
def pyStrip (s : String) : String :=
  String.mk ((dropLeadingWs (dropLeadingWs s.toList.reverse).reverse))

/-- The body of the `for result in results` loop of `process_results`:
defaulting (`"N/A"` title, `"#"` link), trimming, special-character stripping
on title and description, date formatting. -/
def normalizeResult (rsc : String → String) (parse : String → Option String)
    (r : RawResult) : ProcessedResult :=
  { title := rsc (pyStrip (r.title.getD "N/A"))
    link := pyStrip (r.link.getD "#")
    description := rsc (pyStrip ((r.snippet <|> r.description).getD ""))
    source := pyStrip (r.source.getD "N/A")
    date := formatResultDate parse r.date }

/-- The keep condition of `process_results`:
`if processed_result["title"] != "N/A" and processed_result["link"] != "#"`. -/
def keepResult (p : ProcessedResult) : Bool :=
  p.title != "N/A" && p.link != "#"

/-- `ResultProcessor.process_results`: normalize each raw result in order and
append it to the output only when the keep condition holds. -/
def processResults (rsc : String → String) (parse : String → Option String) :
    List RawResult → List ProcessedResult
  | [] => []
  | r :: rest =>
    let p := normalizeResult rsc parse r
    if keepResult p then p :: processResults rsc parse rest
    else processResults rsc parse rest

/-- A raw result dict with every field absent (`{}` in Python). -/
def emptyRawResult : RawResult :=
  { title := none, link := none, snippet := none, description := none
    source := none, date := none }

/-- A concrete instantiation of the abstract strptime stage of
`format_result_date` in which no date pattern matches (so the original string
passes through); the filtering behaviour under scrutiny is independent of this
choice. -/
def noParse : String → Option String := fun _ => none

/-! ## Workflow status route
(`src/routes/enhanced_workflow.py`, `get_workflow_status`) -/

/-- Outcome of the filesystem probes made by the status route for one session:
whether each of the three marker files exists, and whether any
`etapa<N>_erro*<session_id>*` glob matches. -/
structure StatusFs where
  relatorioColeta : Bool
  resumoSintese : Bool
  relatorioFinal : Bool
  erroGlob : Bool
deriving DecidableEq

/-- The JSON body (plus HTTP code) produced by `get_workflow_status`. -/
structure StatusResponse where
  sessionId : String
  currentStep : Nat
  step1 : String
  step2 : String
  step3 : String
  progressPercentage : Nat
  estimatedRemaining : String
  errorField : Option String
  httpCode : Nat
deriving DecidableEq

/-- `get_workflow_status`, translated probe by probe: a pending skeleton, then
the three cumulative `os.path.exists` checks, then the error glob, returned
with HTTP 200. -/
def getWorkflowStatus (fs : StatusFs) (sessionId : String) : StatusResponse :=
  let st0 : StatusResponse :=
    { sessionId := sessionId, currentStep := 0, step1 := "pending", step2 := "pending"
      step3 := "pending", progressPercentage := 0
      estimatedRemaining := "Calculando...", errorField := none, httpCode := 200 }
  let st1 := if fs.relatorioColeta then
    { st0 with step1 := "completed", currentStep := 1, progressPercentage := 33 } else st0
  let st2 := if fs.resumoSintese then
    { st1 with step2 := "completed", currentStep := 2, progressPercentage := 66 } else st1
  let st3 := if fs.relatorioFinal then
    { st2 with
      step3 := "completed"
      currentStep := 3
      progressPercentage := 100
      estimatedRemaining := "Concluído" }
    else st2
  if fs.erroGlob then { st3 with errorField := some "Erro detectado em uma das etapas" } else st3

/-! ## Workflow download route
(`src/routes/enhanced_workflow.py`, `download_workflow_file`) -/

/-- Filesystem probes of the download route: whether `relatorio_final.md` and
`relatorio_final_completo.md` exist under the session directory. -/
structure DownloadFs where
  relatorioFinal : Bool
  relatorioFinalCompleto : Bool
deriving DecidableEq

/-- Response of the download route: a streamed attachment (resolved path and
download name), a 404, or a 400. -/
inductive DownloadResponse where
  | stream (path : String) (downloadName : String)
  | notFound
  | badRequest
deriving DecidableEq

/-- `download_workflow_file`, translated branch by branch. -/
def downloadWorkflowFile (fs : DownloadFs) (sessionId fileType : String) : DownloadResponse :=
  let basePath := "analyses_data/" ++ sessionId
  if fileType = "final_report" then
    let filePath := if fs.relatorioFinal then basePath ++ "/relatorio_final.md"
      else basePath ++ "/relatorio_final_completo.md"
    let exists2 := if fs.relatorioFinal then true else fs.relatorioFinalCompleto
    if exists2 then .stream filePath ("relatorio_final_" ++ sessionId ++ ".md")
    else .notFound
  else if fileType = "complete_report" then
    if fs.relatorioFinalCompleto then
      .stream (basePath ++ "/relatorio_final_completo.md")
        ("relatorio_completo_" ++ sessionId ++ ".md")
    else .notFound
  else .badRequest

/-! ## AutoSaveManager (`src/services/auto_save_manager.py`)

The store is generic over the payload type `D` (Python dict payloads);
`str(dados)` is abstracted by a parameter `strOf : D → String` (it only feeds
the size/word-count metadata fields). Timestamps are a counter `now`,
incremented once per operation. The filesystem is explicit state: the unified
JSON mirrors (`files`), the per-step individual files (`stepFiles`), the
standalone error files (`errorFiles`) and the `completas/RES_BUSCA_*` files
(`massiveFiles`). -/

/-- The `metadata` sub-dict of an extraction step. -/
structure EtapaMeta where
  dataSize : Nat
  processingTime : Nat
deriving DecidableEq

/-- An extraction-step record as built by `salvar_etapa`. -/
structure Etapa (D : Type _) where
  nome : String
  categoria : String
  timestamp : Nat
  dados : D
  metadata : EtapaMeta
deriving DecidableEq

/-- A module record as built by `salvar_modulo`. -/
structure Modulo (D : Type _) where
  nome : String
  categoria : String
  timestamp : Nat
  dados : D
  wordCount : Nat
  dataSize : Nat
deriving DecidableEq

/-- An error record as built by `salvar_erro`. -/
structure ErroRec where
  operacao : String
  erro : String
  tipoErro : String
  timestamp : Nat
  contexto : List (String × String)
deriving DecidableEq

/-- A screenshot record as built by `salvar_screenshot`. -/
structure ScreenshotRec where
  path : String
  url : String
  timestamp : Nat
  metadataKv : List (String × String)
  fileSize : Nat
deriving DecidableEq

/-- The session `metadata` sub-dict. -/
structure SessionMeta where
  totalSources : Nat
  processingPhases : List String
  errors : List ErroRec
  statistics : List (String × Nat)
deriving DecidableEq

/-- A session document as laid out by `_create_session_structure`. -/
structure SessionData (D : Type _) where
  sessionId : Option String
  createdAt : Nat
  lastUpdated : Nat
  methodology : String
  extractionSteps : List (Etapa D)
  moduleData : List (String × D)
  searchResults : List D
  analysisData : List (String × D)
  screenshots : List ScreenshotRec
  viralContent : List D
  synthesisResults : List (String × D)
  finalModules : List (String × Modulo D)
  metadata : SessionMeta
deriving DecidableEq

/-- `_create_session_structure(session_id)`. -/
def createSessionStructure {D : Type _} (sid : Option String) (now : Nat) : SessionData D :=
  { sessionId := sid
    createdAt := now
    lastUpdated := now
    methodology := "ARQV30_Enhanced_v3.0"
    extractionSteps := []
    moduleData := []
    searchResults := []
    analysisData := []
    screenshots := []
    viralContent := []
    synthesisResults := []
    finalModules := []
    metadata := { totalSources := 0, processingPhases := [], errors := [],
                  statistics := [("created", now)] } }

/-- Full store state: the in-memory `session_data` map, the on-disk unified
mirrors, the individual step files (keyed by category), the standalone error
files, the `completas/` massive-search files, and the clock. -/
structure SaveState (D : Type _) where
  memory : List (String × SessionData D)
  files : List (String × SessionData D)
  stepFiles : List (String × Etapa D)
  errorFiles : List ErroRec
  massiveFiles : List (String × D)
  now : Nat

/-- The store as freshly constructed (empty maps, clock at 0). -/
def initSaveState (D : Type _) : SaveState D :=
  { memory := [], files := [], stepFiles := [], errorFiles := [], massiveFiles := [], now := 0 }

/-- Python truthiness of an optional string argument (`if not session_id`):
both `None` and `""` count as absent. -/
def pyTruthy (s : Option String) : Option String :=
  match s with
  | none => none
  | some s => if s = "" then none else some s

/-- Python `len(s.split())`: number of whitespace-separated words. -/
def pyWordCount (s : String) : Nat :=
  ((s.split Char.isWhitespace).filter (fun t => t ≠ "")).length

/-- `self.session_data[sid]` after the `if session_id not in self.session_data`
initialization found in every mutating operation. -/
def getOrCreateSession {D : Type _} (st : SaveState D) (sid : String) : SessionData D :=
  (alookup st.memory sid).getD (createSessionStructure (some sid) st.now)

/-- Path of the unified JSON mirror (`self.base_dir / f-string`). -/
def unifiedPath (sid : String) : String :=
  "analyses_data/" ++ sid ++ "_unified.json"

/-- The step record built by `salvar_etapa` (name, category, timestamp, data,
and the `data_size` / `processing_time` metadata). -/
def mkEtapa {D : Type _} (strOf : D → String) (nome categoria : String) (now : Nat)
    (dados : D) : Etapa D :=
  { nome := nome, categoria := categoria, timestamp := now, dados := dados,
    metadata := { dataSize := (strOf dados).length, processingTime := 0 } }

/-- The session document after the mutations of `salvar_etapa`: step appended,
`last_updated` refreshed, category registered in `processing_phases` if new. -/
def sessAfterEtapa {D : Type _} (strOf : D → String) (nome : String) (dados : D)
    (categoria : String) (st : SaveState D) (sid : String) : SessionData D :=
  let sess0 := getOrCreateSession st sid
  { sess0 with
    extractionSteps := sess0.extractionSteps ++ [mkEtapa strOf nome categoria st.now dados]
    lastUpdated := st.now
    metadata :=
      if categoria ∈ sess0.metadata.processingPhases then sess0.metadata
      else { sess0.metadata with
             processingPhases := sess0.metadata.processingPhases ++ [categoria] } }

/-- `salvar_etapa`: resolve the session id (generating one when the argument is
falsy), lazily create the session, append the step, refresh `last_updated`,
register the category, write the unified mirror and the individual step file. -/
def salvarEtapa {D : Type _} (strOf : D → String) (nome : String) (dados : D)
    (sessionId : Option String) (categoria : String) (genId : String)
    (st : SaveState D) : String × SaveState D :=
  let sid := (pyTruthy sessionId).getD genId
  let sess1 := sessAfterEtapa strOf nome dados categoria st sid
  (unifiedPath sid,
   { st with
     memory := aset st.memory sid sess1
     files := aset st.files sid sess1
     stepFiles := st.stepFiles ++ [(categoria, mkEtapa strOf nome categoria st.now dados)]
     now := st.now + 1 })

/-- Result of `recuperar_etapa`: a step record, a whole session map, or `{}`. -/
inductive RecResult (D : Type _) where
  | etapa (e : Etapa D)
  | session (s : SessionData D)
  | empty
deriving DecidableEq

/-- Linear scan for the first step with the given name. -/
def findEtapa {D : Type _} (steps : List (Etapa D)) (nome : String) : Option (Etapa D) :=
  steps.find? (fun e => e.nome == nome)

/-- The named-step branch of `recuperar_etapa`: first step with the given
name, else `{}`. -/
def recoverStep {D : Type _} (sess : SessionData D) (n : String) : RecResult D :=
  match findEtapa sess.extractionSteps n with
  | some e => .etapa e
  | none => .empty

/-- The shared scan of `recuperar_etapa` once a session document is at hand. -/
def recoverFrom {D : Type _} (sess : SessionData D) (nomeEtapa : Option String) : RecResult D :=
  match pyTruthy nomeEtapa with
  | some n => recoverStep sess n
  | none => .session sess

/-- `recuperar_etapa`: prefer the on-disk unified mirror, fall back to the
in-memory map, else `{}`. -/
def recuperarEtapa {D : Type _} (st : SaveState D) (sessionId : String)
    (nomeEtapa : Option String) : RecResult D :=
  match alookup st.files sessionId with
  | some sess => recoverFrom sess nomeEtapa
  | none =>
    match alookup st.memory sessionId with
    | some sess => recoverFrom sess nomeEtapa
    | none => .empty

/-- The module record built by `salvar_modulo`. -/
def mkModulo {D : Type _} (strOf : D → String) (nome categoria : String) (now : Nat)
    (dados : D) : Modulo D :=
  { nome := nome, categoria := categoria, timestamp := now, dados := dados,
    wordCount := pyWordCount (strOf dados), dataSize := (strOf dados).length }

/-- The session document after the mutations of `salvar_modulo`. -/
def sessAfterModulo {D : Type _} (strOf : D → String) (nome : String) (dados : D)
    (categoria : String) (st : SaveState D) (sid : String) : SessionData D :=
  let sess0 := getOrCreateSession st sid
  { sess0 with
    finalModules := aset sess0.finalModules nome (mkModulo strOf nome categoria st.now dados)
    lastUpdated := st.now }

/-- `salvar_modulo`: lazily create the session, upsert the named module record
into `final_modules` (dict assignment: last write wins per name), refresh
`last_updated`, write the unified mirror. -/
def salvarModulo {D : Type _} (strOf : D → String) (nome : String) (dados : D)
    (sid categoria : String) (st : SaveState D) : String × SaveState D :=
  let sess1 := sessAfterModulo strOf nome dados categoria st sid
  (unifiedPath sid,
   { st with
     memory := aset st.memory sid sess1
     files := aset st.files sid sess1
     now := st.now + 1 })

/-- Input of `salvar_json_gigante`: the optional `search_results` /
`analysis_data` / `viral_content` / `metadata` keys of the payload dict.
The `metadata` dict-update is abstracted as a patch function. -/
structure GiantPayload (D : Type _) where
  searchResults : Option (List D)
  analysisData : Option (List (String × D))
  viralContent : Option (List D)
  metadataUpdate : Option (SessionMeta → SessionMeta)

/-- Python `dict.update` on an association list. -/
def aupdate {β : Type _} (old new : List (String × β)) : List (String × β) :=
  new.foldl (fun acc kv => aset acc kv.1 kv.2) old

/-- The session document after the mutations of `salvar_json_gigante`:
lists extended, `analysis_data` dict-updated, metadata dict-updated, the
`last_massive_save` statistic stamped. -/
def sessAfterGigante {D : Type _} (p : GiantPayload D) (st : SaveState D)
    (sid : String) : SessionData D :=
  let sess0 := getOrCreateSession st sid
  let sess1 := { sess0 with searchResults := sess0.searchResults ++ p.searchResults.getD [] }
  let sess2 := { sess1 with analysisData := aupdate sess1.analysisData (p.analysisData.getD []) }
  let sess3 := { sess2 with viralContent := sess2.viralContent ++ p.viralContent.getD [] }
  let meta1 := (p.metadataUpdate.getD id) sess3.metadata
  let meta2 := { meta1 with statistics := aset meta1.statistics "last_massive_save" st.now }
  { sess3 with metadata := meta2 }

/-- `salvar_json_gigante`: extend the matching session lists/maps, stamp the
`last_massive_save` statistic, write the unified mirror. -/
def salvarJsonGigante {D : Type _} (p : GiantPayload D) (sid : String)
    (st : SaveState D) : String × SaveState D :=
  let sess4 := sessAfterGigante p st sid
  (unifiedPath sid,
   { st with
     memory := aset st.memory sid sess4
     files := aset st.files sid sess4
     now := st.now + 1 })

/-- `save_extracted_content`: save a step named `extracao_<method>` under
category `extracao_conteudo` (with the wrapped payload the Python code builds),
then additionally save a module when the payload flags itself as module
content. -/
def saveExtractedContent {D : Type _} (strOf : D → String) (wrapped raw : D)
    (sourceType : String) (isModule : Bool) (sid genId : String)
    (st : SaveState D) : String × SaveState D :=
  let r1 := salvarEtapa strOf ("extracao_" ++ sourceType) wrapped (some sid)
    "extracao_conteudo" genId st
  let st2 := if isModule then
    (salvarModulo strOf ("conteudo_" ++ sourceType) raw sid "conteudo_extraido" r1.2).2
    else r1.2
  (r1.1, st2)

/-- `salvar_trecho_pesquisa_web`: delegate to `salvar_etapa` with a
time-suffixed name under category `pesquisa_web`; `dadosTrecho` stands for the
`dados_trecho` dict built from the excerpt, URL and metadata. -/
def salvarTrechoPesquisaWeb {D : Type _} (strOf : D → String) (dadosTrecho : D)
    (sid genId : String) (st : SaveState D) : String × SaveState D :=
  salvarEtapa strOf ("trecho_web_" ++ toString st.now) dadosTrecho (some sid)
    "pesquisa_web" genId st

/-- `salvar_screenshot`: lazily create the session, append the screenshot
record, write the unified mirror. -/
def sessAfterScreenshot {D : Type _} (path url : String)
    (metadataKv : List (String × String)) (fileSize : Nat) (st : SaveState D)
    (sid : String) : SessionData D :=
  let sess0 := getOrCreateSession st sid
  { sess0 with
    screenshots := sess0.screenshots ++
      [{ path := path, url := url, timestamp := st.now, metadataKv := metadataKv,
         fileSize := fileSize }] }

/-- `salvar_screenshot` (continued): session update then unified mirror. -/
def salvarScreenshot {D : Type _} (path url : String)
    (metadataKv : List (String × String)) (fileSize : Nat) (sid : String)
    (st : SaveState D) : String × SaveState D :=
  let sess1 := sessAfterScreenshot path url metadataKv fileSize st sid
  (unifiedPath sid,
   { st with
     memory := aset st.memory sid sess1
     files := aset st.files sid sess1
     now := st.now + 1 })

/-- A session document with one error record appended to its error list. -/
def sessWithErro {D : Type _} (sess0 : SessionData D) (e : ErroRec) : SessionData D :=
  { sess0 with
    metadata := { sess0.metadata with errors := sess0.metadata.errors ++ [e] } }

/-- The per-session branch of `salvar_erro`: append the error and rewrite the
mirror when the session exists in memory, else no session change. -/
def stAfterErroSession {D : Type _} (e : ErroRec) (sid : String)
    (st : SaveState D) : SaveState D :=
  match alookup st.memory sid with
  | some sess0 =>
    { st with
      memory := aset st.memory sid (sessWithErro sess0 e)
      files := aset st.files sid (sessWithErro sess0 e) }
  | none => st

/-- The session-map effect of `salvar_erro`: only when a truthy session id
names an existing in-memory session is the error appended and the mirror
rewritten. -/
def stAfterErro {D : Type _} (e : ErroRec) (sessionId : Option String)
    (st : SaveState D) : SaveState D :=
  match pyTruthy sessionId with
  | some sid => stAfterErroSession e sid st
  | none => st

/-- `salvar_erro`: when a truthy session id names an existing in-memory
session, append the error record to its error list and rewrite the mirror;
always write the standalone timestamped error file. -/
def salvarErro {D : Type _} (operacao erroMsg tipoErro : String)
    (contexto : List (String × String)) (sessionId : Option String)
    (st : SaveState D) : String × SaveState D :=
  let e : ErroRec :=
    { operacao := operacao
      erro := erroMsg
      tipoErro := tipoErro
      timestamp := st.now
      contexto := contexto }
  let st1 := stAfterErro e sessionId st
  ("analyses_data/logs/erro_" ++ operacao ++ "_" ++ toString st.now ++ ".json",
   { st1 with errorFiles := st1.errorFiles ++ [e], now := st.now + 1 })

/-- Product-name sanitization of `save_massive_search_result`. -/
def sanitizeProduto (produto : String) : String :=
  (((produto.replace " " "_").replace "/" "_").replace "\\" "_").toUpper

/-- `save_massive_search_result`: write the bundle to
`completas/RES_BUSCA_<PRODUCT>.json` (overwriting any previous bundle for the
same product); the session maps are untouched. -/
def saveMassiveSearchResult {D : Type _} (dados : D) (produto : String)
    (st : SaveState D) : String × SaveState D :=
  let filename := "RES_BUSCA_" ++ sanitizeProduto produto ++ ".json"
  (filename,
   { st with massiveFiles := aset st.massiveFiles filename dados, now := st.now + 1 })

/-- Every mutating operation of `AutoSaveManager`, with its arguments. -/
inductive StoreOp (D : Type _) where
  | etapaOp (nome : String) (dados : D) (sessionId : Option String) (categoria genId : String)
  | moduloOp (nome : String) (dados : D) (sid categoria : String)
  | giganteOp (p : GiantPayload D) (sid : String)
  | extractOp (wrapped raw : D) (sourceType : String) (isModule : Bool) (sid genId : String)
  | trechoOp (dadosTrecho : D) (sid genId : String)
  | screenshotOp (path url : String) (metadataKv : List (String × String)) (fileSize : Nat) (sid : String)
  | erroOp (operacao erroMsg tipoErro : String) (contexto : List (String × String)) (sessionId : Option String)
  | massiveOp (dados : D) (produto : String)

/-- State effect of one `AutoSaveManager` operation. -/
def applyOp {D : Type _} (strOf : D → String) : StoreOp D → SaveState D → SaveState D
  | .etapaOp nome dados sessionId categoria genId, st =>
    (salvarEtapa strOf nome dados sessionId categoria genId st).2
  | .moduloOp nome dados sid categoria, st => (salvarModulo strOf nome dados sid categoria st).2
  | .giganteOp p sid, st => (salvarJsonGigante p sid st).2
  | .extractOp wrapped raw sourceType isModule sid genId, st =>
    (saveExtractedContent strOf wrapped raw sourceType isModule sid genId st).2
  | .trechoOp dadosTrecho sid genId, st => (salvarTrechoPesquisaWeb strOf dadosTrecho sid genId st).2
  | .screenshotOp path url metadataKv fileSize sid, st =>
    (salvarScreenshot path url metadataKv fileSize sid st).2
  | .erroOp operacao erroMsg tipoErro contexto sessionId, st =>
    (salvarErro operacao erroMsg tipoErro contexto sessionId st).2
  | .massiveOp dados produto, st => (saveMassiveSearchResult dados produto st).2

/-- Extraction-step list of a session in the in-memory map (empty when the
session does not exist yet). -/
def stepsOf {D : Type _} (st : SaveState D) (sid : String) : List (Etapa D) :=
  ((alookup st.memory sid).map (fun s => s.extractionSteps)).getD []

/-- `final_modules` map of a session in the in-memory map. -/
def modulesOf {D : Type _} (st : SaveState D) (sid : String) : List (String × Modulo D) :=
  ((alookup st.memory sid).map (fun s => s.finalModules)).getD []

/-! ## MassiveSearchEngine: query generation and main loop
(`src/services/massive_search_engine.py`, `execute_massive_search`) -/

/-- `_generate_search_queries`: the 20 base queries plus 5 audience variants. -/
def generateSearchQueries (produto publico : String) : List String :=
  [produto ++ " " ++ publico
   , produto ++ " marketing"
   , produto ++ " vendas"
   , produto ++ " estratégia"
   , produto ++ " público alvo"
   , produto ++ " mercado"
   , produto ++ " tendências"
   , produto ++ " concorrentes"
   , produto ++ " análise"
   , produto ++ " insights"
   , produto ++ " campanhas"
   , produto ++ " conversão"
   , produto ++ " engajamento"
   , produto ++ " redes sociais"
   , produto ++ " influenciadores"
   , produto ++ " viral"
   , produto ++ " sucesso"
   , produto ++ " cases"
   , produto ++ " resultados"
   , produto ++ " ROI"] ++
  [publico ++ " " ++ produto
   , publico ++ " interesse " ++ produto
   , publico ++ " compra " ++ produto
   , publico ++ " busca " ++ produto
   , publico ++ " precisa " ++ produto]

/-- `_generate_expanded_queries`: defined by the engine but — mirroring the
source — never invoked by `execute_massive_search`. -/
def generateExpandedQueries (produto publico : String) : List String :=
  ["como vender " ++ produto
   , "melhor " ++ produto
   , "onde comprar " ++ produto
   , "preço " ++ produto
   , "avaliação " ++ produto
   , "review " ++ produto
   , "opinião " ++ produto
   , "teste " ++ produto
   , "comparação " ++ produto
   , "alternativa " ++ produto
   , produto ++ " 2024"
   , produto ++ " tendência"
   , produto ++ " futuro"
   , produto ++ " inovação"
   , produto ++ " tecnologia"]

/-- The part of the `massive_data` bundle that changes during the main loop,
plus the final metadata fields. `R` abstracts the per-query dict returned by
`_search_alibaba_websailor`. -/
structure MassiveRun (R : Type _) where
  websailorResults : List R
  realSearchResults : List R
  apisUsed : List String
  totalSearches : Nat
  sizeKb : ℚ
  targetSizeKb : Nat
deriving DecidableEq

/-- One iteration of the `for query in search_queries[:max_searches]` loop:
try the WebSailor backend (a caught failure or a null result appends nothing),
record the `real_search_orchestrator_already_executed` marker instead of
calling the second backend, then recompute the serialized size.
`sizeOf` abstracts `len(json.dumps(massive_data).encode())` as a function of
the two loop-dependent bundle parts. -/
def massiveSearchStep {R : Type _} (websailor : String → Option R)
    (sizeOf : List R → List String → Nat) (acc : MassiveRun R) (query : String) :
    MassiveRun R :=
  let acc1 := { acc with totalSearches := acc.totalSearches + 1 }
  let acc2 :=
    match websailor query with
    | some r =>
      { acc1 with
        websailorResults := acc1.websailorResults ++ [r]
        apisUsed := acc1.apisUsed ++ ["alibaba_websailor"] }
    | none => acc1
  let acc3 := { acc2 with
    apisUsed := acc2.apisUsed ++ ["real_search_orchestrator_already_executed"] }
  { acc3 with sizeKb := (sizeOf acc3.websailorResults acc3.apisUsed : ℚ) / 1024 }

/-- `execute_massive_search`, up to the consolidation/persistence tail:
generate the queries, cap the loop at `min(len(search_queries), 10)`, run the
per-query step over that fixed slice, then finalize the metadata
(`total_searches`, `size_kb`, deduplicated `apis_used`). `minSizeKb` is the
`MIN_JSON_SIZE_KB` target (default 500); the loop body never consults it. -/
def executeMassiveSearch {R : Type _} (websailor : String → Option R)
    (sizeOf : List R → List String → Nat) (minSizeKb : Nat)
    (produto publico sessionId : String) : MassiveRun R :=
  let searchQueries := generateSearchQueries produto publico
  let maxSearches := min searchQueries.length 10
  let init : MassiveRun R :=
    { websailorResults := [], realSearchResults := [], apisUsed := []
      totalSearches := 0, sizeKb := 0, targetSizeKb := minSizeKb }
  let looped := (searchQueries.take maxSearches).foldl
    (massiveSearchStep websailor sizeOf) init
  { looped with apisUsed := looped.apisUsed.eraseDups }

/-! ## MassiveSearchEngine: consolidation of web-research excerpts
(`src/services/massive_search_engine.py`, `_consolidate_all_saved_data`,
section "5. COLETA TRECHOS DE PESQUISA WEB") -/

/-- One entry appended to a consolidation bucket: source filename, kind tag,
and the parsed JSON content (abstract type `J`). -/
structure ConsItem (J : Type _) where
  arquivoOrigem : String
  tipo : String
  dados : J
deriving DecidableEq

/-- The list-valued keys of the `dados_consolidados` dict exactly as
initialized at the top of `_consolidate_all_saved_data` (the dict additionally
holds the non-list `metadata_consolidacao` entry, irrelevant here). Note that
no `trechos_pesquisa_web` key is created. -/
def initConsolidationBuckets (J : Type _) : List (String × List (ConsItem J)) :=
  [("textos_pesquisa_web", [])
   , ("textos_redes_sociais", [])
   , ("insights_extraidos", [])
   , ("trechos_navegacao", [])
   , ("metadados_fontes", [])
   , ("etapas_extracao", [])
   , ("modulos_analises", [])
   , ("jsons_gigantes", [])
   , ("resultados_virais", [])]

/-- Python `dados_consolidados[key].append(item)`: a `KeyError` (modelled as
`none`) when the key is absent, otherwise the updated dict. -/
def appendBucket {J : Type _} (buckets : List (String × List (ConsItem J)))
    (key : String) (item : ConsItem J) : Option (List (String × List (ConsItem J))) :=
  match alookup buckets key with
  | some l => some (aset buckets key (l ++ [item]))
  | none => none

/-- The session research directory `analyses_data/pesquisa_web/<session_id>`
as the consolidation pass probes it: whether the directory exists, the
optional `consolidado.json` content, and the other files with their parsed
contents. -/
structure PesquisaFs (J : Type _) where
  dirExists : Bool
  consolidado : Option J
  individuals : List (String × J)
deriving DecidableEq

/-- The `consolidado.json` sub-step of section 5 of
`_consolidate_all_saved_data`: append the parsed file to the
`trechos_pesquisa_web` bucket; the per-file `try` swallows any exception — in
particular the `KeyError` raised when the dict has no such key — leaving the
dict unchanged. -/
def consolidadoStep {J : Type _} (c : Option J)
    (buckets : List (String × List (ConsItem J))) : List (String × List (ConsItem J)) :=
  match c with
  | some j =>
    match appendBucket buckets "trechos_pesquisa_web"
      { arquivoOrigem := "consolidado.json", tipo := "consolidado_sessao", dados := j } with
    | some b => b
    | none => buckets
  | none => buckets

/-- One iteration of the per-excerpt loop of section 5: skip non-JSON files
and `consolidado.json` itself, then append with the same swallowed-`KeyError`
semantics. -/
def trechoIndivStep {J : Type _} (b : List (String × List (ConsItem J)))
    (fj : String × J) : List (String × List (ConsItem J)) :=
  if fj.1.endsWith ".json" && fj.1 != "consolidado.json" then
    match appendBucket b "trechos_pesquisa_web"
      { arquivoOrigem := fj.1, tipo := "trecho_individual", dados := fj.2 } with
    | some b2 => b2
    | none => b
  else b

/-- Section 5 of `_consolidate_all_saved_data` ("COLETA TRECHOS DE PESQUISA
WEB"): when the research directory exists, fold the session's
`consolidado.json` and then every other `*.json` file into the
`trechos_pesquisa_web` bucket; the final length log line sits under the outer
`try` and has no state effect. -/
def consolidateTrechosPesquisaWeb {J : Type _} (fs : PesquisaFs J)
    (buckets : List (String × List (ConsItem J))) : List (String × List (ConsItem J)) :=
  if fs.dirExists then
    fs.individuals.foldl trechoIndivStep (consolidadoStep fs.consolidado buckets)
  else buckets

/-! ## Step-1 route save (`src/routes/enhanced_workflow.py`, lines 90-96) -/

/-- The `salvar_etapa("etapa1_iniciada", {...}, categoria="workflow")` call of
`start_step1_collection`: the third positional argument (the session id) is
not passed, so the store resolves it to a freshly generated id `genId`. -/
def startStep1Save {D : Type _} (strOf : D → String) (payload : D) (genId : String)
    (st : SaveState D) : String × SaveState D :=
  salvarEtapa strOf "etapa1_iniciada" payload none "workflow" genId st

/-! ## Helper lemmas -/

theorem alookup_aset_self {β : Type _} (l : List (String × β)) (k : String) (v : β) :
    alookup (aset l k v) k = some v := by
  induction l with
  | nil => simp [aset, alookup, List.find?]
  | cons p rest ih =>
    obtain ⟨k2, v2⟩ := p
    by_cases h : k2 = k
    · simp [aset, alookup, List.find?, h]
    · have hb : (k2 == k) = false := by simp [h]
      simp only [aset, hb, if_false]
      simpa [alookup, List.find?, hb] using ih

theorem alookup_aset_other {β : Type _} (l : List (String × β)) (k k2 : String) (v : β)
    (h : k2 ≠ k) : alookup (aset l k v) k2 = alookup l k2 := by
  have hb : (k == k2) = false := beq_eq_false_iff_ne.mpr (Ne.symm h)
  induction l with
  | nil =>
    simp [aset, alookup, List.find?, hb]
  | cons p rest ih =>
    obtain ⟨k3, v3⟩ := p
    by_cases h3 : k3 = k
    · simp [aset, alookup, List.find?, h3, hb]
    · have hb3 : (k3 == k) = false := by simp [h3]
      simp only [aset, hb3, if_false]
      by_cases h32 : k3 = k2
      · simp [alookup, List.find?, h32]
      · have hb32 : (k3 == k2) = false := by simp [h32]
        simpa [alookup, List.find?, hb32] using ih

theorem foldl_count_add (l : List String) (p : String → Bool) (a : ℚ) :
    l.foldl (fun score k => if p k then score + 1 else score) a
      = a + ((l.filter p).length : ℚ) := by
  induction l generalizing a with
  | nil => simp
  | cons x xs ih =>
    by_cases hx : p x
    · simp only [List.foldl, hx, if_true, ih, List.filter_cons, List.length_cons]
      push_cast
      ring
    · simp only [List.foldl, hx, if_false, ih, List.filter_cons]
      simp [hx]

theorem getOrCreate_steps {D : Type _} (st : SaveState D) (sid : String) :
    (getOrCreateSession st sid).extractionSteps = stepsOf st sid := by
  unfold getOrCreateSession stepsOf
  cases alookup st.memory sid <;> simp [createSessionStructure]

/-! ## Claim theorems -/

/-- C9: `_calculate_viral_score` returns a base of 5.0, plus 1.0 for each
keyword of the fixed set found as a substring of the lowercased title, plus
2.0 for an instagram.com / facebook.com / youtube.com link, capped at 10.0;
a title containing (only the keyword) "viral" with an instagram.com link
scores exactly 8.0, and no input ever scores above 10.0. -/
theorem claim_c9_viral_score :
    (∀ title link : String, calculateViralScore title link = viralScoreSpec title link)
    ∧ (∀ title link : String, calculateViralScore title link ≤ 10)
    ∧ calculateViralScore "viral" "https://instagram.com/p/abc" = 8 := by
  have hmain : ∀ title link : String,
      calculateViralScore title link = viralScoreSpec title link := by
    intro title link
    simp only [calculateViralScore, viralScoreSpec]
    rw [foldl_count_add]
    by_cases h : socialPlatforms.any (fun p => containsSub p link)
    · simp only [h, if_true]
    · simp only [h, if_false]
      norm_num
  refine ⟨hmain, ?_, ?_⟩
  · intro t l
    simp only [calculateViralScore]
    exact min_le_right _ _
  · rw [hmain]
    have hkw : ((viralKeywords.filter (fun k => containsSub k (pyLower "viral"))).length : Nat) = 1 := by
      decide
    have hsoc : socialPlatforms.any (fun p => containsSub p "https://instagram.com/p/abc") = true := by
      decide
    simp only [viralScoreSpec, hkw, hsoc, if_true]
    norm_num [min_def]

/-- C6: the download route resolves `final_report` to `relatorio_final.md`
with fallback `relatorio_final_completo.md`, resolves `complete_report` only
to the `_completo` variant, answers 404 when the resolved file is missing,
400 for any other file type, and otherwise streams the file as an attachment
under a session-qualified filename. -/
theorem claim_c6_download (fs : DownloadFs) (sid ft : String) :
    (ft = "final_report" → fs.relatorioFinal = true →
      downloadWorkflowFile fs sid ft
        = .stream ("analyses_data/" ++ sid ++ "/relatorio_final.md")
            ("relatorio_final_" ++ sid ++ ".md"))
    ∧ (ft = "final_report" → fs.relatorioFinal = false → fs.relatorioFinalCompleto = true →
      downloadWorkflowFile fs sid ft
        = .stream ("analyses_data/" ++ sid ++ "/relatorio_final_completo.md")
            ("relatorio_final_" ++ sid ++ ".md"))
    ∧ (ft = "final_report" → fs.relatorioFinal = false → fs.relatorioFinalCompleto = false →
      downloadWorkflowFile fs sid ft = .notFound)
    ∧ (ft = "complete_report" → fs.relatorioFinalCompleto = true →
      downloadWorkflowFile fs sid ft
        = .stream ("analyses_data/" ++ sid ++ "/relatorio_final_completo.md")
            ("relatorio_completo_" ++ sid ++ ".md"))
    ∧ (ft = "complete_report" → fs.relatorioFinalCompleto = false →
      downloadWorkflowFile fs sid ft = .notFound)
    ∧ (ft ≠ "final_report" → ft ≠ "complete_report" →
      downloadWorkflowFile fs sid ft = .badRequest) := by
  obtain ⟨f1, f2⟩ := fs
  refine ⟨?_, ?_, ?_, ?_, ?_, ?_⟩
  · intro h1 h2; subst h1; subst h2; simp [downloadWorkflowFile]
  · intro h1 h2 h3; subst h1; subst h2; subst h3; simp [downloadWorkflowFile]
  · intro h1 h2 h3; subst h1; subst h2; subst h3; simp [downloadWorkflowFile]
  · intro h1 h2; subst h1; subst h2; simp [downloadWorkflowFile]
  · intro h1 h2; subst h1; subst h2; simp [downloadWorkflowFile]
  · intro h1 h2; simp [downloadWorkflowFile, h1, h2]

/-- Witness for C6 at a concrete filesystem and file type. -/
theorem claim_c6_download_witness :
    downloadWorkflowFile ⟨true, false⟩ "s1" "final_report"
      = .stream ("analyses_data/" ++ "s1" ++ "/relatorio_final.md")
          ("relatorio_final_" ++ "s1" ++ ".md") :=
  (claim_c6_download ⟨true, false⟩ "s1" "final_report").1 rfl rfl

/-- C5: the status route derives progress purely from the filesystem probes —
`relatorio_coleta.md` marks step 1 completed (progress 33 when it is the
furthest marker), `resumo_sintese.json` marks step 2 completed (66 when
furthest), `relatorio_final.md` marks step 3 completed with progress 100 and
remaining "Concluído" — and a session that was never started gets HTTP 200
with all three steps pending and progress 0, never an error. -/
theorem claim_c5_status (fs : StatusFs) (sid : String) :
    (getWorkflowStatus fs sid).httpCode = 200
    ∧ (fs.relatorioColeta = true → (getWorkflowStatus fs sid).step1 = "completed")
    ∧ (fs.resumoSintese = true → (getWorkflowStatus fs sid).step2 = "completed")
    ∧ (fs.relatorioFinal = true → (getWorkflowStatus fs sid).step3 = "completed"
        ∧ (getWorkflowStatus fs sid).progressPercentage = 100
        ∧ (getWorkflowStatus fs sid).estimatedRemaining = "Concluído")
    ∧ (fs.relatorioColeta = true → fs.resumoSintese = false → fs.relatorioFinal = false →
        (getWorkflowStatus fs sid).progressPercentage = 33
        ∧ (getWorkflowStatus fs sid).currentStep = 1)
    ∧ (fs.resumoSintese = true → fs.relatorioFinal = false →
        (getWorkflowStatus fs sid).progressPercentage = 66)
    ∧ (fs.relatorioColeta = false → fs.resumoSintese = false → fs.relatorioFinal = false →
        fs.erroGlob = false →
        getWorkflowStatus fs sid =
          { sessionId := sid, currentStep := 0, step1 := "pending", step2 := "pending"
            step3 := "pending", progressPercentage := 0
            estimatedRemaining := "Calculando...", errorField := none, httpCode := 200 }) := by
  obtain ⟨c, s, f, e⟩ := fs
  cases c <;> cases s <;> cases f <;> cases e <;> simp [getWorkflowStatus]

/-- Witness for C5 at two concrete filesystems. -/
theorem claim_c5_status_witness :
    (getWorkflowStatus ⟨true, false, false, false⟩ "sx").progressPercentage = 33
    ∧ (getWorkflowStatus ⟨true, false, false, false⟩ "sx").step1 = "completed"
    ∧ (getWorkflowStatus ⟨false, false, false, false⟩ "sy").progressPercentage = 0 := by
  refine ⟨((claim_c5_status ⟨true, false, false, false⟩ "sx").2.2.2.2.1 rfl rfl rfl).1,
    (claim_c5_status ⟨true, false, false, false⟩ "sx").2.1 rfl, ?_⟩
  have h := (claim_c5_status ⟨false, false, false, false⟩ "sy").2.2.2.2.2.2 rfl rfl rfl rfl
  rw [h]

theorem processResults_eq_filter_map (rsc : String → String)
    (parse : String → Option String) (l : List RawResult) :
    processResults rsc parse l = (l.map (normalizeResult rsc parse)).filter keepResult := by
  induction l with
  | nil => rfl
  | cons r rest ih =>
    by_cases h : keepResult (normalizeResult rsc parse r)
    · simp [processResults, List.filter_cons, h, ih]
    · simp [processResults, List.filter_cons, h, ih]

/-- C4 counterexample: a raw result whose title is present but whose link is
absent (so the link defaults to `"#"`) is dropped by `process_results`,
refuting the claim that "any result with either field present is kept". -/
theorem claim_c4_counterexample :
    processResults removeSpecialCharacters noParse
      [{ emptyRawResult with title := some "Promo Brasil" }] = [] := by
  decide

/-- C4 (amended): `process_results` keeps a result only when BOTH normalized
fields are non-default (`title != "N/A"` and `link != "#"`); a result with
both fields defaulted is dropped (for any special-character stripper), and a
result with both title and link present is kept in normalized form. -/
theorem claim_c4_filtering :
    (∀ (rsc : String → String) (parse : String → Option String) (l : List RawResult),
      processResults rsc parse l = (l.map (normalizeResult rsc parse)).filter keepResult)
    ∧ (∀ (rsc : String → String) (parse : String → Option String),
      processResults rsc parse [emptyRawResult] = [])
    ∧ processResults removeSpecialCharacters noParse
        [{ emptyRawResult with title := some "Lancamento", link := some "https://x.com/a" }]
        = [{ title := "Lancamento", link := "https://x.com/a", description := ""
             source := "N/A", date := none }] := by
  refine ⟨processResults_eq_filter_map, ?_, by decide⟩
  intro rsc parse
  have hlink : pyStrip ((emptyRawResult.link).getD "#") = "#" := by decide
  simp [processResults, normalizeResult, keepResult, hlink]

theorem alookup_init_buckets (J : Type _) :
    alookup (initConsolidationBuckets J) "trechos_pesquisa_web" = none := by
  simp [initConsolidationBuckets, alookup, List.find?]

theorem trechoIndivStep_fixed {J : Type _} (b : List (String × List (ConsItem J)))
    (fj : String × J) (h : alookup b "trechos_pesquisa_web" = none) :
    trechoIndivStep b fj = b := by
  unfold trechoIndivStep
  by_cases hc : fj.1.endsWith ".json" && fj.1 != "consolidado.json"
  · simp [hc, appendBucket, h]
  · simp [hc]

theorem trechoIndivFold_fixed {J : Type _} (l : List (String × J))
    (b : List (String × List (ConsItem J)))
    (h : alookup b "trechos_pesquisa_web" = none) :
    l.foldl trechoIndivStep b = b := by
  induction l with
  | nil => rfl
  | cons fj rest ih => simp [List.foldl, trechoIndivStep_fixed b fj h, ih]

/-- C2: the web-research sub-step of the consolidation pass never folds
anything into the bundle — the `dados_consolidados` dict is initialized
without a `trechos_pesquisa_web` key, so every
`dados_consolidados['trechos_pesquisa_web'].append(...)` raises a `KeyError`
that the per-file handler swallows. For every research-directory content
(including one holding a `consolidado.json` and individual excerpt files) the
bucket dict is left exactly as initialized. -/
theorem claim_c2_consolidation :
    (∀ (J : Type) (fs : PesquisaFs J),
      consolidateTrechosPesquisaWeb fs (initConsolidationBuckets J)
        = initConsolidationBuckets J)
    ∧ alookup (initConsolidationBuckets Unit) "trechos_pesquisa_web" = none
    ∧ consolidateTrechosPesquisaWeb (J := Nat)
        { dirExists := true, consolidado := some 1, individuals := [("t1.json", 2)] }
        (initConsolidationBuckets Nat) = initConsolidationBuckets Nat := by
  have hgen : ∀ (J : Type) (fs : PesquisaFs J),
      consolidateTrechosPesquisaWeb fs (initConsolidationBuckets J)
        = initConsolidationBuckets J := by
    intro J fs
    unfold consolidateTrechosPesquisaWeb
    by_cases hd : fs.dirExists
    · have hcons : consolidadoStep fs.consolidado (initConsolidationBuckets J)
          = initConsolidationBuckets J := by
        unfold consolidadoStep
        cases fs.consolidado with
        | none => rfl
        | some j => simp [appendBucket, alookup_init_buckets]
      rw [if_pos hd, hcons,
        trechoIndivFold_fixed fs.individuals _ (alookup_init_buckets J)]
    · simp [hd]
  exact ⟨hgen, alookup_init_buckets Unit, hgen Nat _⟩

theorem idx_setIdx_self (st : FinderState) (svc : Service) (i : Nat) :
    (st.setIdx svc i).idx svc = i := by
  cases svc <;> rfl

theorem idx_setIdx_other (st : FinderState) (svc svc2 : Service) (i : Nat)
    (h : svc2 ≠ svc) : (st.setIdx svc i).idx svc2 = st.idx svc2 := by
  cases svc <;> cases svc2 <;> first | rfl | exact absurd rfl h

theorem failed_setIdx (st : FinderState) (svc : Service) (i : Nat) :
    (st.setIdx svc i).failedApis = st.failedApis := by
  cases svc <;> rfl

theorem getNextApiKey_nofail {K : Type _} (keys : Service → List K) (svc : Service)
    (st : FinderState) (hf : st.failedApis = []) (hne : keys svc ≠ []) :
    getNextApiKey keys svc st
      = ((keys svc).get? (st.idx svc),
         st.setIdx svc ((st.idx svc + 1) % (keys svc).length)) := by
  obtain ⟨k0, ks0, hks⟩ := List.exists_cons_of_ne_nil hne
  have hempty : (keys svc).isEmpty = false := by rw [hks]; rfl
  have hlen : (keys svc).length = ks0.length + 1 := by rw [hks]; rfl
  simp only [getNextApiKey, hempty, Bool.false_eq_true, if_false, hf, hlen, rotLoop,
    List.not_mem_nil, if_false]

theorem finderReachable_inv {K : Type _} (keys : Service → List K) (st : FinderState)
    (h : FinderReachable keys st) :
    st.failedApis = [] ∧ ∀ svc, st.idx svc < max 1 (keys svc).length := by
  induction h with
  | init =>
    refine ⟨rfl, fun svc => ?_⟩
    have h0 : initFinderState.idx svc = 0 := by cases svc <;> rfl
    rw [h0]
    exact lt_of_lt_of_le Nat.zero_lt_one (le_max_left 1 _)
  | step svc st hr ih =>
    obtain ⟨hf, hidx⟩ := ih
    by_cases hne : keys svc = []
    · have hsame : (getNextApiKey keys svc st).2 = st := by
        simp [getNextApiKey, hne]
      rw [hsame]
      exact ⟨hf, hidx⟩
    · rw [getNextApiKey_nofail keys svc st hf hne]
      refine ⟨by rw [failed_setIdx]; exact hf, fun svc2 => ?_⟩
      by_cases h2 : svc2 = svc
      · subst h2
        rw [idx_setIdx_self]
        have hlen : 0 < (keys svc2).length := List.length_pos.mpr hne
        exact lt_of_lt_of_le (Nat.mod_lt _ hlen) (le_max_right 1 _)
      · rw [idx_setIdx_other _ _ _ _ h2]
        exact hidx svc2

/-- C10: on every reachable state of `ViralImageFinder` (construction followed
by any sequence of `_get_next_api_key` calls — no code path in the class ever
adds to `failed_apis`), the failed set is still empty, so for a service with a
non-empty key list `_get_next_api_key` returns the key at the current rotation
cursor, advances the cursor round-robin, and never reaches its
"all APIs failed" `None` branch. -/
theorem claim_c10_rotation {K : Type _} (keys : Service → List K) (st : FinderState)
    (h : FinderReachable keys st) :
    st.failedApis = []
    ∧ ∀ svc : Service, keys svc ≠ [] →
        (getNextApiKey keys svc st).1 = (keys svc).get? (st.idx svc)
        ∧ (getNextApiKey keys svc st).1 ≠ none
        ∧ ((getNextApiKey keys svc st).2).idx svc
            = (st.idx svc + 1) % (keys svc).length := by
  obtain ⟨hf, hidx⟩ := finderReachable_inv keys st h
  refine ⟨hf, fun svc hne => ?_⟩
  rw [getNextApiKey_nofail keys svc st hf hne]
  have hpos : 0 < (keys svc).length := List.length_pos.mpr hne
  have hlt : st.idx svc < (keys svc).length := by
    have hm := hidx svc
    rwa [Nat.max_eq_right hpos] at hm
  refine ⟨rfl, ?_, idx_setIdx_self st svc _⟩
  rw [List.get?_eq_get hlt]
  simp

/-- Witness for C10 at the freshly constructed state with two keys. -/
theorem claim_c10_rotation_witness :
    initFinderState.failedApis = []
    ∧ (getNextApiKey (fun _ => ["k1", "k2"]) Service.serper initFinderState).1 = some "k1" := by
  have h := claim_c10_rotation (fun _ => ["k1", "k2"]) initFinderState FinderReachable.init
  refine ⟨h.1, ?_⟩
  have h2 := (h.2 Service.serper (by simp)).1
  rw [h2]
  rfl

theorem massiveStep_total {R : Type _} (w : String → Option R)
    (s : List R → List String → Nat) (acc : MassiveRun R) (q : String) :
    (massiveSearchStep w s acc q).totalSearches = acc.totalSearches + 1 := by
  unfold massiveSearchStep
  cases w q <;> rfl

theorem massiveStep_ws {R : Type _} (w : String → Option R)
    (s : List R → List String → Nat) (acc : MassiveRun R) (q : String) :
    (massiveSearchStep w s acc q).websailorResults
      = acc.websailorResults ++ (w q).toList := by
  unfold massiveSearchStep
  cases w q <;> simp

theorem massiveStep_real {R : Type _} (w : String → Option R)
    (s : List R → List String → Nat) (acc : MassiveRun R) (q : String) :
    (massiveSearchStep w s acc q).realSearchResults = acc.realSearchResults := by
  unfold massiveSearchStep
  cases w q <;> rfl

theorem massiveStep_target {R : Type _} (w : String → Option R)
    (s : List R → List String → Nat) (acc : MassiveRun R) (q : String) :
    (massiveSearchStep w s acc q).targetSizeKb = acc.targetSizeKb := by
  unfold massiveSearchStep
  cases w q <;> rfl

theorem massiveLoop_spec {R : Type _} (w : String → Option R)
    (s : List R → List String → Nat) (qs : List String) (acc : MassiveRun R) :
    (qs.foldl (massiveSearchStep w s) acc).totalSearches = acc.totalSearches + qs.length
    ∧ (qs.foldl (massiveSearchStep w s) acc).websailorResults
        = acc.websailorResults ++ qs.filterMap w
    ∧ (qs.foldl (massiveSearchStep w s) acc).realSearchResults = acc.realSearchResults
    ∧ (qs.foldl (massiveSearchStep w s) acc).targetSizeKb = acc.targetSizeKb := by
  induction qs generalizing acc with
  | nil => simp
  | cons q rest ih =>
    obtain ⟨ih1, ih2, ih3, ih4⟩ := ih (massiveSearchStep w s acc q)
    refine ⟨?_, ?_, ?_, ?_⟩
    · rw [List.foldl_cons, ih1, massiveStep_total]
      simp [Nat.add_assoc, Nat.add_comm 1 rest.length]
    · rw [List.foldl_cons, ih2, massiveStep_ws, List.filterMap_cons]
      cases w q <;> simp
    · rw [List.foldl_cons, ih3, massiveStep_real]
    · rw [List.foldl_cons, ih4, massiveStep_target]

/-- C1 counterexample: with 25 generated queries, an always-succeeding
WebSailor oracle and a serialized size that stays at 0 KB (far below the
500 KB target), the loop performs exactly 10 searches and then stops — even
though neither of the claimed stop conditions (size target reached, 50-search
cap) holds — the real-search bucket stays empty (that backend is never
called), and the expanded query set is never appended. -/
theorem claim_c1_counterexample :
    (executeMassiveSearch (R := Nat) (fun _ => some 7) (fun _ _ => 0) 500
        "p" "a" "s1").totalSearches = 10
    ∧ (generateSearchQueries "p" "a").length = 25
    ∧ (executeMassiveSearch (R := Nat) (fun _ => some 7) (fun _ _ => 0) 500
        "p" "a" "s1").realSearchResults = []
    ∧ (executeMassiveSearch (R := Nat) (fun _ => some 7) (fun _ _ => 0) 500
        "p" "a" "s1").sizeKb < 500 := by
  have hstep : ∀ (acc : MassiveRun Nat) (q : String),
      (massiveSearchStep (fun _ => some 7) (fun _ _ => 0) acc q).sizeKb = 0 := by
    intro acc q
    unfold massiveSearchStep
    simp
  have hfold : ∀ (qs : List String) (acc : MassiveRun Nat), acc.sizeKb = 0 →
      (qs.foldl (massiveSearchStep (fun _ => some 7) (fun _ _ => 0)) acc).sizeKb = 0 := by
    intro qs
    induction qs with
    | nil => intro acc h; exact h
    | cons q rest ih => intro acc h; exact ih _ (hstep acc q)
  refine ⟨by decide, by decide, by decide, ?_⟩
  have h : (executeMassiveSearch (R := Nat) (fun _ => some 7) (fun _ _ => 0) 500
      "p" "a" "s1").sizeKb = 0 := by
    unfold executeMassiveSearch
    exact hfold _ _ rfl
  rw [h]
  norm_num

/-- C1 (amended): for every oracle and size function, the main loop of
`execute_massive_search` processes exactly the first `min(n, 10)` of the `n`
generated queries — calling only the WebSailor backend and appending its
non-null results — the real-search result bucket stays empty (the code only
records an "already executed" marker instead of calling that backend), the
size target is recorded in metadata but never used as a stop condition, and
the expanded query set is never appended. -/
theorem claim_c1_loop {R : Type _} (websailor : String → Option R)
    (sizeOf : List R → List String → Nat) (minSizeKb : Nat)
    (produto publico sessionId : String) :
    (executeMassiveSearch websailor sizeOf minSizeKb produto publico sessionId).totalSearches
      = min (generateSearchQueries produto publico).length 10
    ∧ (executeMassiveSearch websailor sizeOf minSizeKb produto publico sessionId).websailorResults
      = ((generateSearchQueries produto publico).take
          (min (generateSearchQueries produto publico).length 10)).filterMap websailor
    ∧ (executeMassiveSearch websailor sizeOf minSizeKb produto publico sessionId).realSearchResults
      = []
    ∧ (executeMassiveSearch websailor sizeOf minSizeKb produto publico sessionId).targetSizeKb
      = minSizeKb := by
  obtain ⟨h1, h2, h3, h4⟩ := massiveLoop_spec websailor sizeOf
    ((generateSearchQueries produto publico).take
      (min (generateSearchQueries produto publico).length 10))
    { websailorResults := [], realSearchResults := [], apisUsed := []
      totalSearches := 0, sizeKb := 0, targetSizeKb := minSizeKb }
  have hlen : ((generateSearchQueries produto publico).take
      (min (generateSearchQueries produto publico).length 10)).length
      = min (generateSearchQueries produto publico).length 10 := by
    rw [List.length_take]
    omega
  unfold executeMassiveSearch
  refine ⟨?_, ?_, ?_, ?_⟩
  · simpa [hlen] using h1
  · simpa using h2
  · simpa using h3
  · simpa using h4

theorem pyTruthy_some (s : String) (h : s ≠ "") : pyTruthy (some s) = some s := by
  simp [pyTruthy, h]

theorem resolve_some (s genId : String) (h : s ≠ "") :
    (pyTruthy (some s)).getD genId = s := by
  simp [pyTruthy, h]

theorem sessAfterEtapa_steps {D : Type _} (strOf : D → String) (nome : String)
    (dados : D) (categoria : String) (st : SaveState D) (sid : String) :
    (sessAfterEtapa strOf nome dados categoria st sid).extractionSteps
      = stepsOf st sid ++ [mkEtapa strOf nome categoria st.now dados] := by
  have h : (sessAfterEtapa strOf nome dados categoria st sid).extractionSteps
      = (getOrCreateSession st sid).extractionSteps
        ++ [mkEtapa strOf nome categoria st.now dados] := rfl
  rw [h, getOrCreate_steps]

theorem getOrCreate_modules {D : Type _} (st : SaveState D) (sid : String) :
    (getOrCreateSession st sid).finalModules = modulesOf st sid := by
  unfold getOrCreateSession modulesOf
  cases alookup st.memory sid <;> simp [createSessionStructure]

theorem sessAfterModulo_modules {D : Type _} (strOf : D → String) (nome : String)
    (dados : D) (categoria : String) (st : SaveState D) (sid : String) :
    (sessAfterModulo strOf nome dados categoria st sid).finalModules
      = aset (modulesOf st sid) nome (mkModulo strOf nome categoria st.now dados) := by
  have h : (sessAfterModulo strOf nome dados categoria st sid).finalModules
      = aset (getOrCreateSession st sid).finalModules nome
          (mkModulo strOf nome categoria st.now dados) := rfl
  rw [h, getOrCreate_modules]

theorem salvarEtapa_some_state {D : Type _} (strOf : D → String) (x : String) (d : D)
    (s t genId : String) (st : SaveState D) (hs : s ≠ "") :
    (salvarEtapa strOf x d (some s) t genId st).2
      = { st with
          memory := aset st.memory s (sessAfterEtapa strOf x d t st s)
          files := aset st.files s (sessAfterEtapa strOf x d t st s)
          stepFiles := st.stepFiles ++ [(t, mkEtapa strOf x t st.now d)]
          now := st.now + 1 } := by
  simp only [salvarEtapa, resolve_some s genId hs]

theorem stepsOf_aset_exists {D : Type _} (st : SaveState D) (target : String)
    (sess : SessionData D) (tail : List (Etapa D))
    (hsteps : sess.extractionSteps = stepsOf st target ++ tail) (sid : String)
    (stNew : SaveState D) (hmem : stNew.memory = aset st.memory target sess) :
    ∃ t2, stepsOf stNew sid = stepsOf st sid ++ t2 := by
  by_cases h : sid = target
  · subst h
    refine ⟨tail, ?_⟩
    have hnew : stepsOf stNew sid = sess.extractionSteps := by
      unfold stepsOf
      rw [hmem, alookup_aset_self]
      rfl
    rw [hnew, hsteps]
  · refine ⟨[], ?_⟩
    have hnew : stepsOf stNew sid = stepsOf st sid := by
      unfold stepsOf
      rw [hmem, alookup_aset_other _ _ _ _ h]
    rw [hnew, List.append_nil]

theorem modulesOf_salvarModulo {D : Type _} (strOf : D → String) (nome : String)
    (dados : D) (sid categoria : String) (st : SaveState D) :
    modulesOf (salvarModulo strOf nome dados sid categoria st).2 sid
      = aset (modulesOf st sid) nome (mkModulo strOf nome categoria st.now dados) := by
  have hmem : (salvarModulo strOf nome dados sid categoria st).2.memory
      = aset st.memory sid (sessAfterModulo strOf nome dados categoria st sid) := rfl
  have hnew : modulesOf (salvarModulo strOf nome dados sid categoria st).2 sid
      = (sessAfterModulo strOf nome dados categoria st sid).finalModules := by
    unfold modulesOf
    rw [hmem, alookup_aset_self]
    rfl
  rw [hnew, sessAfterModulo_modules]

theorem filter_aset_key {β : Type _} (l : List (String × β)) (k : String) (v : β)
    (h : (l.filter (fun p => p.1 == k)).length ≤ 1) :
    (aset l k v).filter (fun p => p.1 == k) = [(k, v)] := by
  induction l with
  | nil => simp [aset]
  | cons p2 rest ih =>
    obtain ⟨k2, v2⟩ := p2
    by_cases hk : k2 = k
    · subst hk
      have h0 : (rest.filter (fun p => p.1 == k2)).length = 0 := by
        simp only [List.filter_cons, beq_self_eq_true, if_true, List.length_cons] at h
        omega
      have hnil : rest.filter (fun p => p.1 == k2) = [] := List.length_eq_zero.mp h0
      simp [aset, List.filter_cons, hnil]
    · have hb : (k2 == k) = false := by simp [hk]
      have h2 : (rest.filter (fun p => p.1 == k)).length ≤ 1 := by
        simpa [List.filter_cons, hb] using h
      simp [aset, hb, List.filter_cons, ih h2]

theorem recuperar_of_file {D : Type _} (st : SaveState D) (sid : String)
    (sess : SessionData D) (n : Option String)
    (h : alookup st.files sid = some sess) :
    recuperarEtapa st sid n = recoverFrom sess n := by
  unfold recuperarEtapa
  rw [h]

theorem recuperar_empty {D : Type _} (st : SaveState D) (sid : String) (n : Option String)
    (hf : alookup st.files sid = none) (hm : alookup st.memory sid = none) :
    recuperarEtapa st sid n = .empty := by
  unfold recuperarEtapa
  rw [hf, hm]

theorem recoverFrom_found {D : Type _} (sess : SessionData D) (x : String)
    (hx : x ≠ "") (e : Etapa D)
    (hfind : sess.extractionSteps.find? (fun e2 => e2.nome == x) = some e) :
    recoverFrom sess (some x) = .etapa e := by
  have h : recoverFrom sess (some x) = recoverStep sess x := by
    unfold recoverFrom
    rw [pyTruthy_some _ hx]
  rw [h]
  unfold recoverStep findEtapa
  rw [hfind]

/-- C3: `start_step1_collection` records the "etapa1_iniciada" step through
`salvar_etapa` WITHOUT passing a session id, so the store files it under a
freshly generated id (`genId`), not under the `session_id` the route returns
(`sidR`); recovering the step for the returned id therefore yields the empty
map, while the step does exist under the generated id. -/
theorem claim_c3_step1_session {D : Type _} (strOf : D → String) (payload : D)
    (genId sidR : String) (st : SaveState D)
    (hne : genId ≠ sidR)
    (hmemR : alookup st.memory sidR = none)
    (hfileR : alookup st.files sidR = none)
    (hmemG : alookup st.memory genId = none) :
    recuperarEtapa (startStep1Save strOf payload genId st).2 sidR (some "etapa1_iniciada")
      = .empty
    ∧ ∃ e : Etapa D,
        recuperarEtapa (startStep1Save strOf payload genId st).2 genId
          (some "etapa1_iniciada") = .etapa e ∧ e.dados = payload := by
  have hfiles : (startStep1Save strOf payload genId st).2.files
      = aset st.files genId (sessAfterEtapa strOf "etapa1_iniciada" payload "workflow" st genId) :=
    rfl
  have hmem : (startStep1Save strOf payload genId st).2.memory
      = aset st.memory genId (sessAfterEtapa strOf "etapa1_iniciada" payload "workflow" st genId) :=
    rfl
  constructor
  · refine recuperar_empty _ _ _ ?_ ?_
    · rw [hfiles, alookup_aset_other _ _ _ _ (Ne.symm hne)]
      exact hfileR
    · rw [hmem, alookup_aset_other _ _ _ _ (Ne.symm hne)]
      exact hmemR
  · refine ⟨mkEtapa strOf "etapa1_iniciada" "workflow" st.now payload, ?_, rfl⟩
    rw [recuperar_of_file _ _ _ _ (by rw [hfiles, alookup_aset_self])]
    refine recoverFrom_found _ _ (by decide) _ ?_
    rw [sessAfterEtapa_steps]
    have hsteps : stepsOf st genId = [] := by
      unfold stepsOf
      rw [hmemG]
      rfl
    rw [hsteps]
    simp [mkEtapa]

/-- Witness for C3 on the empty store with distinct concrete ids. -/
theorem claim_c3_step1_session_witness :
    recuperarEtapa (startStep1Save (fun n => toString n) (7 : Nat) "session_g"
        (initSaveState Nat)).2 "session_r" (some "etapa1_iniciada") = .empty
    ∧ ∃ e : Etapa Nat,
        recuperarEtapa (startStep1Save (fun n => toString n) (7 : Nat) "session_g"
          (initSaveState Nat)).2 "session_g" (some "etapa1_iniciada") = .etapa e
        ∧ e.dados = 7 := by
  exact claim_c3_step1_session (fun n => toString n) 7 "session_g" "session_r"
    (initSaveState Nat) (by decide) rfl rfl rfl

/-- C7 counterexample: saving a step named "x" with payload 1 and then again
with payload 2 under the same session, recover-step returns the FIRST record
(payload 1, dataSize 1, timestamp 0), not the payload just saved — so the
claim, instantiated at the second save, fails. -/
theorem claim_c7_counterexample :
    recuperarEtapa
      (salvarEtapa (fun n => toString n) "x" 2 (some "s1") "t" "g2"
        (salvarEtapa (fun n => toString n) "x" 1 (some "s1") "t" "g1"
          (initSaveState Nat)).2).2
      "s1" (some "x")
    = RecResult.etapa
        { nome := "x", categoria := "t", timestamp := 0, dados := 1,
          metadata := { dataSize := 1, processingTime := 0 } } := by
  decide

/-- C7 (amended): when the session does not already contain a step with the
given name, saving a step and recovering it reads back the saved payload and
category (`recuperar_etapa` returns the first step whose name matches, so an
earlier same-named step would win otherwise). -/
theorem claim_c7_readback {D : Type _} (strOf : D → String) (x : String) (d : D)
    (s t genId : String) (st : SaveState D) (hs : s ≠ "") (hx : x ≠ "")
    (hprior : ∀ e ∈ stepsOf st s, e.nome ≠ x) :
    ∃ e : Etapa D,
      recuperarEtapa (salvarEtapa strOf x d (some s) t genId st).2 s (some x) = .etapa e
      ∧ e.dados = d ∧ e.categoria = t := by
  refine ⟨mkEtapa strOf x t st.now d, ?_, rfl, rfl⟩
  have hfiles : (salvarEtapa strOf x d (some s) t genId st).2.files
      = aset st.files s (sessAfterEtapa strOf x d t st s) := by
    rw [salvarEtapa_some_state strOf x d s t genId st hs]
  rw [recuperar_of_file _ _ _ _ (by rw [hfiles, alookup_aset_self])]
  refine recoverFrom_found _ _ hx _ ?_
  rw [sessAfterEtapa_steps, List.find?_append]
  have h1 : (stepsOf st s).find? (fun e => e.nome == x) = none := by
    rw [List.find?_eq_none]
    intro e he
    simp [hprior e he]
  rw [h1]
  simp [mkEtapa]

/-- Witness for C7 on the empty store. -/
theorem claim_c7_readback_witness :
    ∃ e : Etapa Nat,
      recuperarEtapa (salvarEtapa (fun n => toString n) "x" (5 : Nat) (some "s1")
        "cat" "g1" (initSaveState Nat)).2 "s1" (some "x") = .etapa e
      ∧ e.dados = 5 ∧ e.categoria = "cat" := by
  apply claim_c7_readback (fun n => toString n) "x" 5 "s1" "cat" "g1"
    (initSaveState Nat) (by decide) (by decide)
  intro e he
  simp [stepsOf, initSaveState, alookup] at he

/-- C8: (a) `salvar_modulo` is last-write-wins per module name — saving module
m with payload v1 then v2 leaves exactly one record named m holding v2;
(b) two `salvar_etapa` calls with the same step name append two distinct
entries; (c) no `AutoSaveManager` operation ever removes or overwrites an
entry of a session's `extraction_steps` list — every operation extends it by a
(possibly empty) suffix. -/
theorem claim_c8_store_semantics :
    (∀ (D : Type) (strOf : D → String) (m : String) (v1 v2 : D) (sid c1 c2 : String)
      (st : SaveState D),
      ((modulesOf st sid).filter (fun p => p.1 == m)).length ≤ 1 →
      ∃ rec : Modulo D,
        ((modulesOf (salvarModulo strOf m v2 sid c2
            (salvarModulo strOf m v1 sid c1 st).2).2 sid).filter
          (fun p => p.1 == m)) = [(m, rec)]
        ∧ rec.dados = v2)
    ∧ (∀ (D : Type) (strOf : D → String) (x : String) (d1 d2 : D)
      (s t1 t2 g1 g2 : String) (st : SaveState D), s ≠ "" →
      ∃ e1 e2 : Etapa D,
        stepsOf (salvarEtapa strOf x d2 (some s) t2 g2
            (salvarEtapa strOf x d1 (some s) t1 g1 st).2).2 s
          = stepsOf st s ++ [e1, e2]
        ∧ e1.nome = x ∧ e2.nome = x ∧ e1.dados = d1 ∧ e2.dados = d2)
    ∧ (∀ (D : Type) (strOf : D → String) (op : StoreOp D) (st : SaveState D) (sid : String),
      ∃ tail, stepsOf (applyOp strOf op st) sid = stepsOf st sid ++ tail) := by
  refine ⟨?_, ?_, ?_⟩
  · intro D strOf m v1 v2 sid c1 c2 st hm
    refine ⟨mkModulo strOf m c2 (salvarModulo strOf m v1 sid c1 st).2.now v2, ?_, rfl⟩
    rw [modulesOf_salvarModulo, modulesOf_salvarModulo]
    have h1 := filter_aset_key (modulesOf st sid) m
      (mkModulo strOf m c1 st.now v1) hm
    have hle : ((aset (modulesOf st sid) m (mkModulo strOf m c1 st.now v1)).filter
        (fun p => p.1 == m)).length ≤ 1 := by
      rw [h1]
      simp
    exact filter_aset_key _ m _ hle
  · intro D strOf x d1 d2 s t1 t2 g1 g2 st hs
    refine ⟨mkEtapa strOf x t1 st.now d1,
      mkEtapa strOf x t2 (salvarEtapa strOf x d1 (some s) t1 g1 st).2.now d2,
      ?_, rfl, rfl, rfl, rfl⟩
    have hst1 : stepsOf (salvarEtapa strOf x d1 (some s) t1 g1 st).2 s
        = stepsOf st s ++ [mkEtapa strOf x t1 st.now d1] := by
      have hmem : (salvarEtapa strOf x d1 (some s) t1 g1 st).2.memory
          = aset st.memory s (sessAfterEtapa strOf x d1 t1 st s) := by
        rw [salvarEtapa_some_state strOf x d1 s t1 g1 st hs]
      have hnew : stepsOf (salvarEtapa strOf x d1 (some s) t1 g1 st).2 s
          = (sessAfterEtapa strOf x d1 t1 st s).extractionSteps := by
        unfold stepsOf
        rw [hmem, alookup_aset_self]
        rfl
      rw [hnew, sessAfterEtapa_steps]
    have hst2 : stepsOf (salvarEtapa strOf x d2 (some s) t2 g2
        (salvarEtapa strOf x d1 (some s) t1 g1 st).2).2 s
        = stepsOf (salvarEtapa strOf x d1 (some s) t1 g1 st).2 s
          ++ [mkEtapa strOf x t2 (salvarEtapa strOf x d1 (some s) t1 g1 st).2.now d2] := by
      have hmem : (salvarEtapa strOf x d2 (some s) t2 g2
          (salvarEtapa strOf x d1 (some s) t1 g1 st).2).2.memory
          = aset (salvarEtapa strOf x d1 (some s) t1 g1 st).2.memory s
              (sessAfterEtapa strOf x d2 t2 (salvarEtapa strOf x d1 (some s) t1 g1 st).2 s) := by
        rw [salvarEtapa_some_state strOf x d2 s t2 g2 _ hs]
      have hnew : stepsOf (salvarEtapa strOf x d2 (some s) t2 g2
          (salvarEtapa strOf x d1 (some s) t1 g1 st).2).2 s
          = (sessAfterEtapa strOf x d2 t2
              (salvarEtapa strOf x d1 (some s) t1 g1 st).2 s).extractionSteps := by
        unfold stepsOf
        rw [hmem, alookup_aset_self]
        rfl
      rw [hnew, sessAfterEtapa_steps]
    rw [hst2, hst1, List.append_assoc]
    rfl
  · intro D strOf op st sid
    cases op with
    | etapaOp nome dados sessionId categoria genId =>
      exact stepsOf_aset_exists st ((pyTruthy sessionId).getD genId) _
        [mkEtapa strOf nome categoria st.now dados]
        (sessAfterEtapa_steps strOf nome dados categoria st _) sid _ rfl
    | moduloOp nome dados sid2 categoria =>
      refine stepsOf_aset_exists st sid2 _ [] ?_ sid _ rfl
      have h : (sessAfterModulo strOf nome dados categoria st sid2).extractionSteps
          = (getOrCreateSession st sid2).extractionSteps := rfl
      rw [h, getOrCreate_steps, List.append_nil]
    | giganteOp p sid2 =>
      refine stepsOf_aset_exists st sid2 _ [] ?_ sid _ rfl
      have h : (sessAfterGigante p st sid2).extractionSteps
          = (getOrCreateSession st sid2).extractionSteps := rfl
      rw [h, getOrCreate_steps, List.append_nil]
    | extractOp wrapped raw sourceType isModule sid2 genId =>
      obtain ⟨t1, h1⟩ := stepsOf_aset_exists st
        ((pyTruthy (some sid2)).getD genId) _
        [mkEtapa strOf ("extracao_" ++ sourceType) "extracao_conteudo" st.now wrapped]
        (sessAfterEtapa_steps strOf _ wrapped "extracao_conteudo" st _) sid
        (salvarEtapa strOf ("extracao_" ++ sourceType) wrapped (some sid2)
          "extracao_conteudo" genId st).2 rfl
      cases hub : isModule with
      | false =>
        refine ⟨t1, ?_⟩
        have happ : applyOp strOf (.extractOp wrapped raw sourceType false sid2 genId) st
            = (salvarEtapa strOf ("extracao_" ++ sourceType) wrapped (some sid2)
                "extracao_conteudo" genId st).2 := rfl
        rw [happ]
        exact h1
      | true =>
        have hsteps2 : (sessAfterModulo strOf ("conteudo_" ++ sourceType) raw
            "conteudo_extraido"
            (salvarEtapa strOf ("extracao_" ++ sourceType) wrapped (some sid2)
              "extracao_conteudo" genId st).2 sid2).extractionSteps
            = stepsOf (salvarEtapa strOf ("extracao_" ++ sourceType) wrapped (some sid2)
                "extracao_conteudo" genId st).2 sid2 ++ [] := by
          have h : (sessAfterModulo strOf ("conteudo_" ++ sourceType) raw "conteudo_extraido"
              (salvarEtapa strOf ("extracao_" ++ sourceType) wrapped (some sid2)
                "extracao_conteudo" genId st).2 sid2).extractionSteps
              = (getOrCreateSession (salvarEtapa strOf ("extracao_" ++ sourceType) wrapped
                  (some sid2) "extracao_conteudo" genId st).2 sid2).extractionSteps := rfl
          rw [h, getOrCreate_steps, List.append_nil]
        obtain ⟨t2, h2⟩ := stepsOf_aset_exists
          (salvarEtapa strOf ("extracao_" ++ sourceType) wrapped (some sid2)
            "extracao_conteudo" genId st).2 sid2 _ [] hsteps2 sid
          (salvarModulo strOf ("conteudo_" ++ sourceType) raw sid2 "conteudo_extraido"
            (salvarEtapa strOf ("extracao_" ++ sourceType) wrapped (some sid2)
              "extracao_conteudo" genId st).2).2 rfl
        refine ⟨t1 ++ t2, ?_⟩
        have happ : applyOp strOf (.extractOp wrapped raw sourceType true sid2 genId) st
            = (salvarModulo strOf ("conteudo_" ++ sourceType) raw sid2 "conteudo_extraido"
                (salvarEtapa strOf ("extracao_" ++ sourceType) wrapped (some sid2)
                  "extracao_conteudo" genId st).2).2 := rfl
        rw [happ, h2, h1, List.append_assoc]
    | trechoOp dadosTrecho sid2 genId =>
      exact stepsOf_aset_exists st ((pyTruthy (some sid2)).getD genId) _
        [mkEtapa strOf ("trecho_web_" ++ toString st.now) "pesquisa_web" st.now dadosTrecho]
        (sessAfterEtapa_steps strOf _ dadosTrecho "pesquisa_web" st _) sid _ rfl
    | screenshotOp path url metadataKv fileSize sid2 =>
      refine stepsOf_aset_exists st sid2 _ [] ?_ sid _ rfl
      have h : (sessAfterScreenshot path url metadataKv fileSize st sid2).extractionSteps
          = (getOrCreateSession st sid2).extractionSteps := rfl
      rw [h, getOrCreate_steps, List.append_nil]
    | erroOp operacao erroMsg tipoErro contexto sessionId =>
      have hmemEq : (applyOp strOf (.erroOp operacao erroMsg tipoErro contexto sessionId) st).memory
          = (stAfterErro
              { operacao := operacao, erro := erroMsg, tipoErro := tipoErro,
                timestamp := st.now, contexto := contexto } sessionId st).memory := rfl
      cases hpt : pyTruthy sessionId with
      | none =>
        refine ⟨[], ?_⟩
        have hst1 : stAfterErro
            { operacao := operacao, erro := erroMsg, tipoErro := tipoErro,
              timestamp := st.now, contexto := contexto } sessionId st = st := by
          unfold stAfterErro
          rw [hpt]
        have h : stepsOf (applyOp strOf (.erroOp operacao erroMsg tipoErro contexto sessionId) st) sid
            = stepsOf st sid := by
          unfold stepsOf
          rw [hmemEq, hst1]
        rw [h, List.append_nil]
      | some sid2 =>
        have hst2 : stAfterErro
            { operacao := operacao, erro := erroMsg, tipoErro := tipoErro,
              timestamp := st.now, contexto := contexto } sessionId st
            = stAfterErroSession
                { operacao := operacao, erro := erroMsg, tipoErro := tipoErro,
                  timestamp := st.now, contexto := contexto } sid2 st := by
          unfold stAfterErro
          rw [hpt]
        cases hlk : alookup st.memory sid2 with
        | none =>
          refine ⟨[], ?_⟩
          have hst1 : stAfterErroSession
              { operacao := operacao, erro := erroMsg, tipoErro := tipoErro,
                timestamp := st.now, contexto := contexto } sid2 st = st := by
            unfold stAfterErroSession
            rw [hlk]
          have h : stepsOf (applyOp strOf (.erroOp operacao erroMsg tipoErro contexto sessionId) st) sid
              = stepsOf st sid := by
            unfold stepsOf
            rw [hmemEq, hst2, hst1]
          rw [h, List.append_nil]
        | some sess0 =>
          have hsteps0 : (sessWithErro sess0
              { operacao := operacao, erro := erroMsg, tipoErro := tipoErro,
                timestamp := st.now, contexto := contexto }).extractionSteps
              = stepsOf st sid2 ++ [] := by
            have h : stepsOf st sid2 = sess0.extractionSteps := by
              unfold stepsOf
              rw [hlk]
              rfl
            rw [h, List.append_nil]
            rfl
          refine stepsOf_aset_exists st sid2 _ [] hsteps0 sid _ ?_
          rw [hmemEq, hst2]
          unfold stAfterErroSession
          rw [hlk]
    | massiveOp dados produto =>
      refine ⟨[], ?_⟩
      have h : stepsOf (applyOp strOf (.massiveOp dados produto) st) sid = stepsOf st sid := by
        unfold applyOp saveMassiveSearchResult stepsOf
        rfl
      rw [h, List.append_nil]

/-- Witness for C8: module upsert and double step save on the empty store. -/
theorem claim_c8_store_semantics_witness :
    (∃ rec : Modulo Nat,
      ((modulesOf (salvarModulo (fun n => toString n) "m" (2 : Nat) "s1" "modulo"
          (salvarModulo (fun n => toString n) "m" (1 : Nat) "s1" "modulo"
            (initSaveState Nat)).2).2 "s1").filter (fun p => p.1 == "m")) = [("m", rec)]
      ∧ rec.dados = 2)
    ∧ (∃ e1 e2 : Etapa Nat,
      stepsOf (salvarEtapa (fun n => toString n) "x" (2 : Nat) (some "s1") "t" "g2"
          (salvarEtapa (fun n => toString n) "x" (1 : Nat) (some "s1") "t" "g1"
            (initSaveState Nat)).2).2 "s1"
        = stepsOf (initSaveState Nat) "s1" ++ [e1, e2]
      ∧ e1.nome = "x" ∧ e2.nome = "x" ∧ e1.dados = 1 ∧ e2.dados = 2) := by
  constructor
  · exact claim_c8_store_semantics.1 Nat (fun n => toString n) "m" 1 2 "s1" "modulo"
      "modulo" (initSaveState Nat) (by decide)
  · exact claim_c8_store_semantics.2.1 Nat (fun n => toString n) "x" 1 2 "s1" "t" "t"
      "g1" "g2" (initSaveState Nat) (by decide)

end V1900
